import Mathlib

/-!
Verification of the castle (tunneld) server tunnel data plane.

This file gives a shallow embedding of the server-side tunnel code:

* `src/socket.rs` — `map_bind_error` and the bind-based socket creators;
* `src/server/tunnel/mod.rs` — `init_data_sender_bridge` and `create_socket`
  (the fixed-port branch and the dynamic retry loop over the `PortManager`);
* `src/server/tunnel/udp.rs` — `Udp::serve` per-datagram task and `Udp::transfer`;
* `tunneld-server/src/manager.rs` — `TcpManager::handle_listener` handshake and
  per-connection splice task;
* `tunneld-pkg/src/bridge.rs` / `tunneld-pkg/src/event.rs` — the `BridgeData`
  and `ConnChanDataType` message types.

Asynchronous awaits are embedded by making the outcome of each race (which
`select!` arm completes first, what a channel `recv` yields, whether an OS
bind succeeds) an explicit input of the embedded function; the function then
computes the observable effects of the task deterministically from those
inputs: messages sent on channels, datagrams sent to the peer, whether the
remove token was cancelled, and whether the task panicked.  The `PortManager`
itself (`src/server/port.rs`) is not among the given sources and is modelled
from the specification, as marked on its declaration.
-/

namespace Castle

/-- Status codes of the tonic `Status` values produced by the server
(`already_exists`, `permission_denied`, `internal`, `resource_exhausted`). -/
inductive StatusCode where
  | alreadyExists
  | permissionDenied
  | internalCode
  | resourceExhausted
deriving DecidableEq

/-- A tonic `Status`: a code together with its message. -/
structure Status where
  code : StatusCode
  message : String
deriving DecidableEq

/-- `Status::already_exists`. -/
def Status.already_exists (m : String) : Status := ⟨.alreadyExists, m⟩

/-- `Status::permission_denied`. -/
def Status.permission_denied (m : String) : Status := ⟨.permissionDenied, m⟩

/-- `Status::internal`. -/
def Status.internal (m : String) : Status := ⟨.internalCode, m⟩

/-- `Status::resource_exhausted`. -/
def Status.resource_exhausted (m : String) : Status := ⟨.resourceExhausted, m⟩

/-- The `std::io::ErrorKind` values distinguished by `map_bind_error`
(`src/socket.rs`): `AddrInUse`, `PermissionDenied`, and everything else. -/
inductive ErrorKind where
  | addrInUse
  | permissionDenied
  | other
deriving DecidableEq

/-- `map_bind_error` from `src/socket.rs`: translate the kind of a failed
bind into a tonic `Status`. -/
def map_bind_error (err : ErrorKind) : Status :=
  match err with
  | .addrInUse => Status.already_exists "port is already in use"
  | .permissionDenied => Status.permission_denied "permission denied"
  | .other => Status.internal "failed to bind port"

/-- `create_tcp_listener` / `create_udp_socket` (`src/socket.rs`), which are
the `SocketCreator::create_socket` implementations used by `create_socket`
(`src/server/tunnel/mod.rs`): bind the given port and map a bind error
through `map_bind_error`.  The outcome of the OS-level bind is an oracle
argument `bind`; the bound socket itself is abstracted to `Unit`. -/
def socket_creator_create_socket (bind : Nat → Except ErrorKind Unit) (port : Nat) :
    Except Status Unit :=
  match bind port with
  | .ok u => .ok u
  | .error e => .error (map_bind_error e)

/-- Modelled from the spec: the `PortManager` (`src/server/port.rs`, not among
the given sources; specification section 4.1).  It owns a free set of public
ports, here a list; `get` (the allocate operation with `preferred == 0`) pops
a free port, and `remove` permanently discards a port from the free set. -/
structure PortManager where
  free : List Nat
deriving DecidableEq

/-- Modelled from the spec: `PortManager.get` pops an arbitrary free port
(here the first) and returns it with the remaining manager state, or `none`
when the free set is empty. -/
def PortManager.get (pm : PortManager) : Option (Nat × PortManager) :=
  match pm.free with
  | [] => none
  | p :: rest => some (p, ⟨rest⟩)

/-- Modelled from the spec: `PortManager.remove` permanently marks a port as
unusable, deleting it from the free set. -/
def PortManager.remove (pm : PortManager) (port : Nat) : PortManager :=
  ⟨pm.free.erase port⟩

/-- The observable outcome of one `create_socket` call
(`src/server/tunnel/mod.rs`): the returned value (on success the bound port;
the socket itself is abstracted away), the `PortManager` state after the
call, and the ports on which `T::create_socket` was attempted, in order. -/
structure CreateSocketRun where
  result : Except Status Nat
  pm : PortManager
  attempts : List Nat

/-- The `port == 0` retry loop of `create_socket`
(`src/server/tunnel/mod.rs`, lines 98 to 111): pop a port via
`port_manager.get()` (returning `resource_exhausted` when it yields none),
attempt `T::create_socket` on it, and on failure `port_manager.remove` the
port and continue; on success return the port and the socket. -/
def create_socket_loop (bind : Nat → Except ErrorKind Unit)
    (free : List Nat) (attempts : List Nat) : CreateSocketRun :=
  match free with
  | [] => ⟨.error (Status.resource_exhausted "no available port"), ⟨[]⟩, attempts⟩
  | p :: rest =>
    match socket_creator_create_socket bind p with
    | .ok _ => ⟨.ok p, ⟨rest⟩, attempts ++ [p]⟩
    | .error _ => create_socket_loop bind (rest.erase p) (attempts ++ [p])
termination_by free.length
decreasing_by
  exact Nat.lt_succ_of_le ((List.erase_sublist p rest).length_le)

/-- `create_socket` (`src/server/tunnel/mod.rs`, lines 88 to 113): with a
positive port, a single `T::create_socket` attempt on exactly that port,
propagating its `Status` error; with port `0`, the retry loop over the
`PortManager`. -/
def create_socket (bind : Nat → Except ErrorKind Unit) (port : Nat)
    (pm : PortManager) : CreateSocketRun :=
  if port > 0 then
    match socket_creator_create_socket bind port with
    | .ok _ => ⟨.ok port, pm, [port]⟩
    | .error s => ⟨.error s, pm, [port]⟩
  else
    create_socket_loop bind pm.free []

/-- `BridgeData` (`tunneld-pkg/src/bridge.rs`, the `crate::bridge` module): the
sum type carried on the bridge channel.  `Sender` carries the
`mpsc::Sender<Vec<u8>>` handle by which the control session pushes bytes back
to the worker, abstracted here as a numeric id; `Data` carries a byte chunk. -/
inductive BridgeData where
  | Sender (handle : Nat)
  | Data (payload : List Nat)
deriving DecidableEq

/-- Which arm of the `select!` in `init_data_sender_bridge`
(`src/server/tunnel/mod.rs`, lines 61 to 72) completes first: a result of
`bridge_chan_receiver.recv()` (`none` means the channel was closed), or
`client_cancel_receiver.cancelled()`. -/
inductive FirstArm where
  | recv (msg : Option BridgeData)
  | cancelled
deriving DecidableEq

/-- How `init_data_sender_bridge` ends: returning `Ok` with the data sender
handle, returning `Err`, or panicking (which aborts the spawned task). -/
inductive InitOutcome where
  | ok (data_sender : Nat)
  | err (msg : String)
  | panicked (msg : String)
deriving DecidableEq

/-- The observable effects of one `init_data_sender_bridge` call: its
outcome, how many `UserIncoming::Add` events it sent on
`user_incoming_chan`, and whether `remove_bridge_sender` was cancelled
inside the call (the background task spawned by the call sends exactly one
`UserIncoming::Remove(id)` once that token is cancelled). -/
structure InitRun where
  outcome : InitOutcome
  addsSent : Nat
  removeRaised : Bool
deriving DecidableEq

/-- `init_data_sender_bridge` (`src/server/tunnel/mod.rs`, lines 30 to 80):
send `UserIncoming::Add` for a fresh bridge id, spawn the background task
that will send `UserIncoming::Remove` once `remove_bridge_sender` is
cancelled, then select between the first bridge-channel message and client
cancellation.  A first message of variant `Sender` is returned in the
`BridgeResult`; any other first message panics; if cancellation wins the
race, the call cancels `remove_bridge_sender` and returns the error
`client cancelled`. -/
def init_data_sender_bridge (first : FirstArm) : InitRun :=
  match first with
  | .recv data_sender =>
    match data_sender with
    | some (.Sender sender) => ⟨.ok sender, 1, false⟩
    | _ =>
      ⟨.panicked "we expect to receive DataSender from data_channel_rx at the first time.",
        1, false⟩
  | .cancelled => ⟨.err "client cancelled", 1, true⟩

/-- Which branch of one two-way `select!` in `Udp::transfer` completes
first: the `client_cancel_receiver.cancelled()` branch, or the other
(I/O) branch. -/
inductive Winner where
  | cancelled
  | ready
deriving DecidableEq

/-- The free inputs of one `Udp::transfer` run
(`src/server/tunnel/udp.rs`, lines 72 to 115): the datagram payload `buf`,
whether `data_sender.send` succeeds, what `data_receiver.recv()` yields, and
which branch wins each of the three selects. -/
structure TransferInput where
  buf : List Nat
  sendOk : Bool
  reply : Option BridgeData
  w1 : Winner
  w2 : Winner
  w3 : Winner
deriving DecidableEq

/-- The observable effects of one `Udp::transfer` run: payloads delivered
through `data_sender`, how many messages were taken off `data_receiver`,
the `(datagram, remote_addr)` pairs passed to `remote_writer.send_to`, and
whether the run panicked. -/
structure TransferRun where
  sentToClient : List (List Nat)
  framesTaken : Nat
  sentToPeer : List (List Nat × Nat)
  panicMsg : Option String
deriving DecidableEq

/-- The third `select!` of `Udp::transfer` (lines 107 to 114): race
cancellation against `remote_writer.send_to(data, remote_addr)`; a send
error is only logged. -/
def transfer_step3 (w3 : Winner) (data : List Nat) (remote_addr : Nat)
    (acc : TransferRun) : TransferRun :=
  match w3 with
  | .cancelled => acc
  | .ready => { acc with sentToPeer := acc.sentToPeer ++ [(data, remote_addr)] }

/-- The second `select!` of `Udp::transfer` (lines 90 to 105): race
cancellation against `data_receiver.recv()`.  If cancellation wins, `data`
stays the empty vector and control falls through to the third select; a
closed channel returns after a warning; a `Data` frame becomes `data`; a
`Sender` frame panics. -/
def transfer_step2 (i : TransferInput) (remote_addr : Nat)
    (acc : TransferRun) : TransferRun :=
  match i.w2 with
  | .cancelled => transfer_step3 i.w3 [] remote_addr acc
  | .ready =>
    match i.reply with
    | none => acc
    | some (.Data data) =>
      transfer_step3 i.w3 data remote_addr { acc with framesTaken := acc.framesTaken + 1 }
    | some (.Sender _) =>
      { acc with
          framesTaken := acc.framesTaken + 1,
          panicMsg := some "data_receiver should not be closed" }

/-- `Udp::transfer` (`src/server/tunnel/udp.rs`, lines 72 to 115).  The
first `select!` (lines 80 to 88) races cancellation against
`data_sender.send(buf.to_vec())`; a send error returns immediately, a
successful send or a cancellation win falls through to the second select. -/
def Udp.transfer (i : TransferInput) (remote_addr : Nat) : TransferRun :=
  match i.w1 with
  | .cancelled => transfer_step2 i remote_addr ⟨[], 0, [], none⟩
  | .ready =>
    if i.sendOk then
      transfer_step2 i remote_addr ⟨[i.buf], 0, [], none⟩
    else
      ⟨[], 0, [], none⟩

/-- The free inputs of one per-datagram task spawned by `Udp::serve`: the
outcome of the handshake race inside `init_data_sender_bridge`, the
`Udp::transfer` inputs, and the peer address of the datagram. -/
structure UdpTaskInput where
  first : FirstArm
  t : TransferInput
  remote_addr : Nat
deriving DecidableEq

/-- The observable effects of one per-datagram task of `Udp::serve`. -/
structure UdpTaskRun where
  addsSent : Nat
  removeRaised : Bool
  sentToClient : List (List Nat)
  sentToPeer : List (List Nat × Nat)
  panicMsg : Option String
deriving DecidableEq

/-- The per-datagram task spawned by `Udp::serve`
(`src/server/tunnel/udp.rs`, lines 46 to 66): run
`init_data_sender_bridge` and `unwrap()` its result (so an `Err` panics the
task), run `Udp::transfer`, then cancel `remove_bridge_sender`.  A panic
anywhere aborts the task before the final cancel. -/
def udp_serve_task (inp : UdpTaskInput) : UdpTaskRun :=
  let ir := init_data_sender_bridge inp.first
  match ir.outcome with
  | .ok _ =>
    let tr := Udp.transfer inp.t inp.remote_addr
    match tr.panicMsg with
    | some m => ⟨ir.addsSent, ir.removeRaised, tr.sentToClient, tr.sentToPeer, some m⟩
    | none => ⟨ir.addsSent, true, tr.sentToClient, tr.sentToPeer, none⟩
  | .err m =>
    ⟨ir.addsSent, ir.removeRaised, [], [],
      some ("called Result::unwrap on an Err value: " ++ m)⟩
  | .panicked m => ⟨ir.addsSent, ir.removeRaised, [], [], some m⟩

/-- The inputs on which the per-datagram task panics on a protocol
violation before it can cancel `remove_bridge_sender`: a non-`Sender` first
bridge message (including a closed channel), or a `Sender` frame at the
reply position of the transfer (reached only when the first select did not
return early). -/
def udp_violation (inp : UdpTaskInput) : Bool :=
  match inp.first with
  | .cancelled => false
  | .recv (some (.Sender _)) =>
    (match inp.t.w1, inp.t.sendOk with
     | .cancelled, _ => true
     | .ready, b => b) &&
    (match inp.t.w2, inp.t.reply with
     | .ready, some (.Sender _) => true
     | _, _ => false)
  | .recv _ => true

/-- `ConnChanDataType` (`tunneld-pkg/src/event.rs`): the messages carried on
the per-connection channel of the TCP manager; the `mpsc` sender handle is
abstracted as a numeric id. -/
inductive ConnChanDataType where
  | DataSender (handle : Nat)
  | Data (payload : List Nat)
deriving DecidableEq

/-- How the per-connection handshake of `TcpManager::handle_listener` ends. -/
inductive TcpFirstOutcome where
  | ok (handle : Nat)
  | panicked (msg : String)
deriving DecidableEq

/-- The handshake of `TcpManager::handle_listener`
(`tunneld-server/src/manager.rs`, lines 71 to 77): after sending the
`Connection` event, await the first message on `data_channel_rx`; a closed
channel panics through `unwrap()` on the `context` error, a `DataSender`
message yields the handle, and any other message panics. -/
def handle_listener_first (msg : Option ConnChanDataType) : TcpFirstOutcome :=
  match msg with
  | none => .panicked "failed to receive data_sender"
  | some (.DataSender sender) => .ok sender
  | some _ =>
    .panicked "we expect to receive DataSender from data_channel_rx at the first time."

/-- The free inputs of one per-connection splice task of
`TcpManager::handle_listener`: the chunks the remote read half yields until
EOF, and the `Data` payloads `data_channel_rx` yields until it closes. -/
structure TcpSpliceInput where
  remoteChunks : List (List Nat)
  tunnelFrames : List (List Nat)
deriving DecidableEq

/-- What one pump direction did: the chunks it wrote, and whether it
explicitly shut down its own write half afterwards. -/
structure PumpRun where
  written : List (List Nat)
  shutdownDone : Bool
deriving DecidableEq

/-- `tokio::io::copy`: forward every chunk of the reader to the writer, in
order, until EOF. -/
def ioCopy : List (List Nat) → List (List Nat)
  | [] => []
  | c :: rest => c :: ioCopy rest

/-- The `remote_to_me_to_tunnel` direction (`manager.rs`, lines 84 to 87):
copy the remote read half into the tunnel writer, then shut the tunnel
writer down. -/
def remote_to_me_to_tunnel (remoteChunks : List (List Nat)) : PumpRun :=
  ⟨ioCopy remoteChunks, true⟩

/-- The `tunnel_to_me_to_remove` direction (`manager.rs`, lines 88 to 91;
the name is as in the source): copy the tunnel reader into the remote write
half, then shut the remote writer down. -/
def tunnel_to_me_to_remove (tunnelFrames : List (List Nat)) : PumpRun :=
  ⟨ioCopy tunnelFrames, true⟩

/-- The observable effects of one per-connection splice task. -/
structure TcpSpliceRun where
  toTunnel : PumpRun
  toRemote : PumpRun
  removeRaised : Bool
deriving DecidableEq

/-- The per-connection task spawned by `TcpManager::handle_listener`
(`manager.rs`, lines 79 to 93): `tokio::join!` of the two copy directions;
each direction runs to its own EOF and then shuts down its own write half;
the function contains no removal token and never sends any remove event, so
`removeRaised` is always false. -/
def tcp_splice_task (inp : TcpSpliceInput) : TcpSpliceRun :=
  ⟨remote_to_me_to_tunnel inp.remoteChunks, tunnel_to_me_to_remove inp.tunnelFrames, false⟩

/-- Unfolding lemma for the retry loop: a successful bind returns the popped
port, the remaining free set, and records the single attempt. -/
theorem aux_loop_ok (bind : Nat → Except ErrorKind Unit) (p : Nat)
    (rest attempts : List Nat) (h : socket_creator_create_socket bind p = .ok ()) :
    create_socket_loop bind (p :: rest) attempts = ⟨.ok p, ⟨rest⟩, attempts ++ [p]⟩ := by
  rw [create_socket_loop, h]

/-- Unfolding lemma for the retry loop: a failed bind removes the popped port
and retries on the remaining free set. -/
theorem aux_loop_err (bind : Nat → Except ErrorKind Unit) (p : Nat)
    (rest attempts : List Nat) (s : Status)
    (h : socket_creator_create_socket bind p = .error s) :
    create_socket_loop bind (p :: rest) attempts =
      create_socket_loop bind (rest.erase p) (attempts ++ [p]) := by
  rw [create_socket_loop, h]

/-- The retry loop returns the `resource_exhausted` status exactly when every
port of the free set fails to bind. -/
theorem aux_loop_exhausted_iff (bind : Nat → Except ErrorKind Unit) :
    ∀ (n : Nat) (free attempts : List Nat), free.length ≤ n →
      ((create_socket_loop bind free attempts).result =
          .error (Status.resource_exhausted "no available port") ↔
        ∀ p ∈ free, ∃ k, bind p = Except.error k) := by
  intro n
  induction n with
  | zero =>
    intro free attempts hlen
    have hfree : free = [] := List.eq_nil_of_length_eq_zero (Nat.le_zero.mp hlen)
    subst hfree
    simp [create_socket_loop]
  | succ n ih =>
    intro free attempts hlen
    cases free with
    | nil => simp [create_socket_loop]
    | cons p rest =>
      have hrest : rest.length ≤ n := Nat.le_of_succ_le_succ hlen
      cases hbind : bind p with
      | ok u =>
        cases u
        have hs : socket_creator_create_socket bind p = .ok () := by
          simp [socket_creator_create_socket, hbind]
        rw [aux_loop_ok bind p rest attempts hs]
        constructor
        · intro h
          exact absurd h (by simp)
        · intro hall
          obtain ⟨k, hk⟩ := hall p (List.mem_cons_self p rest)
          rw [hbind] at hk
          cases hk
      | error k =>
        have hs : socket_creator_create_socket bind p = .error (map_bind_error k) := by
          simp [socket_creator_create_socket, hbind]
        rw [aux_loop_err bind p rest attempts _ hs]
        have hlen2 : (rest.erase p).length ≤ n :=
          le_trans (List.erase_sublist p rest).length_le hrest
        rw [ih (rest.erase p) (attempts ++ [p]) hlen2]
        constructor
        · intro hall q hq
          rcases List.mem_cons.mp hq with h | h
          · subst h
            exact ⟨k, hbind⟩
          · by_cases hqp : q = p
            · subst hqp
              exact ⟨k, hbind⟩
            · exact hall q ((List.mem_erase_of_ne hqp).mpr h)
        · intro hall q hq
          exact hall q (List.mem_cons_of_mem p ((List.erase_sublist p rest).subset hq))

/-- When the retry loop returns `resource_exhausted`, the free set of the
manager has emptied. -/
theorem aux_loop_exhausted_pm (bind : Nat → Except ErrorKind Unit) :
    ∀ (n : Nat) (free attempts : List Nat), free.length ≤ n →
      (create_socket_loop bind free attempts).result =
          .error (Status.resource_exhausted "no available port") →
      (create_socket_loop bind free attempts).pm = ⟨[]⟩ := by
  intro n
  induction n with
  | zero =>
    intro free attempts hlen _
    have hfree : free = [] := List.eq_nil_of_length_eq_zero (Nat.le_zero.mp hlen)
    subst hfree
    rw [create_socket_loop]
  | succ n ih =>
    intro free attempts hlen hres
    cases free with
    | nil => rw [create_socket_loop]
    | cons p rest =>
      have hrest : rest.length ≤ n := Nat.le_of_succ_le_succ hlen
      cases hbind : bind p with
      | ok u =>
        cases u
        have hs : socket_creator_create_socket bind p = .ok () := by
          simp [socket_creator_create_socket, hbind]
        rw [aux_loop_ok bind p rest attempts hs] at hres
        exact absurd hres (by simp)
      | error k =>
        have hs : socket_creator_create_socket bind p = .error (map_bind_error k) := by
          simp [socket_creator_create_socket, hbind]
        rw [aux_loop_err bind p rest attempts _ hs] at hres ⊢
        have hlen2 : (rest.erase p).length ≤ n :=
          le_trans (List.erase_sublist p rest).length_le hrest
        exact ih (rest.erase p) (attempts ++ [p]) hlen2 hres

/-- The retry loop makes at most one bind attempt per port of the free set. -/
theorem aux_loop_attempts_len (bind : Nat → Except ErrorKind Unit) :
    ∀ (n : Nat) (free attempts : List Nat), free.length ≤ n →
      (create_socket_loop bind free attempts).attempts.length ≤
        attempts.length + free.length := by
  intro n
  induction n with
  | zero =>
    intro free attempts hlen
    have hfree : free = [] := List.eq_nil_of_length_eq_zero (Nat.le_zero.mp hlen)
    subst hfree
    simp [create_socket_loop]
  | succ n ih =>
    intro free attempts hlen
    cases free with
    | nil => simp [create_socket_loop]
    | cons p rest =>
      have hrest : rest.length ≤ n := Nat.le_of_succ_le_succ hlen
      cases hbind : bind p with
      | ok u =>
        cases u
        have hs : socket_creator_create_socket bind p = .ok () := by
          simp [socket_creator_create_socket, hbind]
        rw [aux_loop_ok bind p rest attempts hs]
        simp only [List.length_append, List.length_cons, List.length_nil]
        omega
      | error k =>
        have hs : socket_creator_create_socket bind p = .error (map_bind_error k) := by
          simp [socket_creator_create_socket, hbind]
        rw [aux_loop_err bind p rest attempts _ hs]
        have hlen2 : (rest.erase p).length ≤ n :=
          le_trans (List.erase_sublist p rest).length_le hrest
        have hub := ih (rest.erase p) (attempts ++ [p]) hlen2
        have herase : (rest.erase p).length ≤ rest.length :=
          (List.erase_sublist p rest).length_le
        simp only [List.length_append, List.length_cons, List.length_nil] at hub ⊢
        omega

/-- Every chunk of the reader reaches the writer unchanged and in order. -/
theorem aux_ioCopy_eq : ∀ l : List (List Nat), ioCopy l = l := by
  intro l
  induction l with
  | nil => rfl
  | cons c rest ih => simp [ioCopy, ih]

/-- C1: the first message a worker pulls off the bridge channel during the
handshake must be of variant `Sender`: the worker reaches user I/O (an `ok`
outcome, or any sends in the per-datagram task) only when the first message
is `Sender`, and any other first variant panics with a protocol-violation
message, terminating the bridge task; likewise in the TCP manager handshake
the first `data_channel_rx` message must be `DataSender`. -/
theorem first_frame_must_be_sender :
    (∀ (first : FirstArm) (s : Nat),
      (init_data_sender_bridge first).outcome = .ok s →
      first = .recv (some (.Sender s))) ∧
    (∀ m : BridgeData, (∀ s, m ≠ .Sender s) →
      (init_data_sender_bridge (.recv (some m))).outcome =
        .panicked "we expect to receive DataSender from data_channel_rx at the first time.") ∧
    (∀ (m : BridgeData) (t : TransferInput) (addr : Nat), (∀ s, m ≠ .Sender s) →
      (udp_serve_task ⟨.recv (some m), t, addr⟩).sentToClient = [] ∧
      (udp_serve_task ⟨.recv (some m), t, addr⟩).sentToPeer = []) ∧
    (∀ (msg : Option ConnChanDataType) (h : Nat),
      handle_listener_first msg = .ok h → msg = some (.DataSender h)) ∧
    (∀ c : ConnChanDataType, (∀ h, c ≠ .DataSender h) →
      handle_listener_first (some c) =
        .panicked "we expect to receive DataSender from data_channel_rx at the first time.") := by
  refine ⟨?_, ?_, ?_, ?_, ?_⟩
  · intro first s hok
    rcases first with m | _
    · rcases m with _ | b
      · simp [init_data_sender_bridge] at hok
      · rcases b with ⟨h2⟩ | ⟨p⟩
        · simp [init_data_sender_bridge] at hok
          rw [hok]
        · simp [init_data_sender_bridge] at hok
    · simp [init_data_sender_bridge] at hok
  · intro m hm
    rcases m with ⟨h⟩ | ⟨p⟩
    · exact absurd rfl (hm h)
    · rfl
  · intro m t addr hm
    rcases m with ⟨h⟩ | ⟨p⟩
    · exact absurd rfl (hm h)
    · exact ⟨rfl, rfl⟩
  · intro msg h hok
    rcases msg with _ | c
    · simp [handle_listener_first] at hok
    · rcases c with ⟨h2⟩ | ⟨p⟩
      · simp [handle_listener_first] at hok
        rw [hok]
      · simp [handle_listener_first] at hok
  · intro c hc
    rcases c with ⟨h⟩ | ⟨p⟩
    · exact absurd rfl (hc h)
    · rfl

/-- Witness for C1 at concrete inputs: a `Sender 5` first frame yields the
`ok` outcome, and the theorem recovers the first frame from it. -/
theorem first_frame_must_be_sender_witness :
    (init_data_sender_bridge (.recv (some (.Sender 5)))).outcome = .ok 5 ∧
    FirstArm.recv (some (.Sender 5)) = .recv (some (.Sender 5)) :=
  ⟨rfl, first_frame_must_be_sender.1 (.recv (some (.Sender 5))) 5 rfl⟩

/-- C2: with port `0`, `create_socket` pops free ports, binds, removes a
failing port and retries; it terminates after at most one attempt per free
port, and it returns the `resource_exhausted` status exactly when the free
set of the manager empties, that is, when every free port fails to bind. -/
theorem create_socket_dynamic_retry_exhausted :
    ∀ (bind : Nat → Except ErrorKind Unit) (pm : PortManager),
      ((create_socket bind 0 pm).result =
          .error (Status.resource_exhausted "no available port") ↔
        ∀ p ∈ pm.free, ∃ k, bind p = Except.error k) ∧
      ((create_socket bind 0 pm).result =
          .error (Status.resource_exhausted "no available port") →
        (create_socket bind 0 pm).pm = ⟨[]⟩) ∧
      (create_socket bind 0 pm).attempts.length ≤ pm.free.length ∧
      (∀ (p : Nat) (rest attempts : List Nat),
        socket_creator_create_socket bind p = .ok () →
        create_socket_loop bind (p :: rest) attempts =
          ⟨.ok p, ⟨rest⟩, attempts ++ [p]⟩) ∧
      (∀ (p : Nat) (rest attempts : List Nat) (s : Status),
        socket_creator_create_socket bind p = .error s →
        create_socket_loop bind (p :: rest) attempts =
          create_socket_loop bind (rest.erase p) (attempts ++ [p])) := by
  intro bind pm
  have hz : create_socket bind 0 pm = create_socket_loop bind pm.free [] := by
    simp [create_socket]
  refine ⟨?_, ?_, ?_, aux_loop_ok bind, aux_loop_err bind⟩
  · rw [hz]
    exact aux_loop_exhausted_iff bind pm.free.length pm.free [] le_rfl
  · rw [hz]
    exact aux_loop_exhausted_pm bind pm.free.length pm.free [] le_rfl
  · rw [hz]
    have h := aux_loop_attempts_len bind pm.free.length pm.free [] le_rfl
    simpa using h

/-- Witness for C2 at concrete inputs: with free set `[1, 2]` and a bind that
always fails, the loop returns `resource_exhausted` and the free set has
emptied. -/
theorem create_socket_dynamic_retry_exhausted_witness :
    (create_socket (fun _ => Except.error ErrorKind.other) 0 ⟨[1, 2]⟩).result =
      Except.error (Status.resource_exhausted "no available port") ∧
    (create_socket (fun _ => Except.error ErrorKind.other) 0 ⟨[1, 2]⟩).pm = ⟨[]⟩ := by
  have h1 : (create_socket (fun _ => Except.error ErrorKind.other) 0 ⟨[1, 2]⟩).result =
      Except.error (Status.resource_exhausted "no available port") :=
    ((create_socket_dynamic_retry_exhausted (fun _ => Except.error ErrorKind.other)
      ⟨[1, 2]⟩).1).mpr (fun p _ => ⟨ErrorKind.other, rfl⟩)
  exact ⟨h1,
    (create_socket_dynamic_retry_exhausted (fun _ => Except.error ErrorKind.other)
      ⟨[1, 2]⟩).2.1 h1⟩

/-- C3 counterexample: a bridge whose first channel message is a `Data`
frame sends `Add` to the registry, panics, and never raises the remove
token, so no matching `Remove` is ever sent: the claim that every exit path
raises `remove_signal` fails at this input. -/
theorem udp_add_without_remove_cex :
    (udp_serve_task
      ⟨.recv (some (.Data [0])), ⟨[0], true, none, .ready, .ready, .ready⟩, 0⟩).addsSent = 1 ∧
    (udp_serve_task
      ⟨.recv (some (.Data [0])), ⟨[0], true, none, .ready, .ready, .ready⟩, 0⟩).removeRaised
      = false :=
  ⟨rfl, rfl⟩

/-- C3 amended: every per-datagram task sends exactly one `Add`, and raises
the remove token (hence exactly one matching `Remove` is eventually sent)
if and only if the task does not panic on a protocol violation: a
non-`Sender` first bridge message, or a `Sender` frame at the reply
position; on those panic paths no `Remove` is ever sent. -/
theorem udp_add_remove_pairing_amended :
    ∀ inp : UdpTaskInput,
      (udp_serve_task inp).addsSent = 1 ∧
      (udp_serve_task inp).removeRaised = !udp_violation inp := by
  intro ⟨first, ⟨buf, sendOk, reply, w1, w2, w3⟩, addr⟩
  rcases first with m | _
  · rcases m with _ | b
    · exact ⟨rfl, rfl⟩
    · rcases b with ⟨h⟩ | ⟨p⟩
      · cases w1 <;> cases sendOk <;> cases w2 <;>
          rcases reply with _ | (⟨h2⟩ | ⟨p2⟩) <;> cases w3 <;> exact ⟨rfl, rfl⟩
      · exact ⟨rfl, rfl⟩
  · exact ⟨rfl, rfl⟩

/-- C4: on a datagram whose bridge handshake succeeded and whose transfer is
not cancelled, the worker sends the payload exactly once through the sender
handle, takes exactly one inbound frame, which must be `Data` (a `Sender`
frame there panics with a protocol-violation message), sends the reply to
the peer address exactly once, and then raises the remove token. -/
theorem udp_one_request_one_response :
    ∀ (buf d : List Nat) (addr s h : Nat),
      (Udp.transfer ⟨buf, true, some (.Data d), .ready, .ready, .ready⟩ addr).sentToClient
          = [buf] ∧
      (Udp.transfer ⟨buf, true, some (.Data d), .ready, .ready, .ready⟩ addr).framesTaken
          = 1 ∧
      (Udp.transfer ⟨buf, true, some (.Data d), .ready, .ready, .ready⟩ addr).sentToPeer
          = [(d, addr)] ∧
      (Udp.transfer ⟨buf, true, some (.Data d), .ready, .ready, .ready⟩ addr).panicMsg
          = none ∧
      (udp_serve_task ⟨.recv (some (.Sender s)),
          ⟨buf, true, some (.Data d), .ready, .ready, .ready⟩, addr⟩).removeRaised = true ∧
      (udp_serve_task ⟨.recv (some (.Sender s)),
          ⟨buf, true, some (.Data d), .ready, .ready, .ready⟩, addr⟩).sentToPeer
          = [(d, addr)] ∧
      (Udp.transfer ⟨buf, true, some (.Sender h), .ready, .ready, .ready⟩ addr).panicMsg
          = some "data_receiver should not be closed" :=
  fun _ _ _ _ _ => ⟨rfl, rfl, rfl, rfl, rfl, rfl, rfl⟩

/-- C5: with a positive port, `create_socket` makes a single bind attempt on
exactly that port, and a bind failure surfaces as the status determined by
`map_bind_error`: `already_exists` for `AddrInUse`, `permission_denied` for
`PermissionDenied`, and `internal` for every other bind error. -/
theorem create_socket_fixed_port_single_attempt :
    ∀ (bind : Nat → Except ErrorKind Unit) (port : Nat) (pm : PortManager),
      0 < port →
      (create_socket bind port pm).attempts = [port] ∧
      (bind port = .ok () → (create_socket bind port pm).result = .ok port) ∧
      (bind port = .error .addrInUse →
        (create_socket bind port pm).result =
          .error (Status.already_exists "port is already in use")) ∧
      (bind port = .error .permissionDenied →
        (create_socket bind port pm).result =
          .error (Status.permission_denied "permission denied")) ∧
      (bind port = .error .other →
        (create_socket bind port pm).result =
          .error (Status.internal "failed to bind port")) := by
  intro bind port pm hp
  refine ⟨?_, ?_, ?_, ?_, ?_⟩
  · cases hbind : bind port <;>
      simp [create_socket, socket_creator_create_socket, hp, hbind]
  · intro h
    simp [create_socket, socket_creator_create_socket, hp, h]
  · intro h
    simp [create_socket, socket_creator_create_socket, map_bind_error, hp, h]
  · intro h
    simp [create_socket, socket_creator_create_socket, map_bind_error, hp, h]
  · intro h
    simp [create_socket, socket_creator_create_socket, map_bind_error, hp, h]

/-- Witness for C5 at concrete inputs: port `8080` with a bind failing with
`AddrInUse` surfaces as the `already_exists` status. -/
theorem create_socket_fixed_port_single_attempt_witness :
    0 < 8080 ∧
    (create_socket (fun _ => Except.error ErrorKind.addrInUse) 8080 ⟨[1]⟩).result =
      Except.error (Status.already_exists "port is already in use") :=
  ⟨by decide,
    (create_socket_fixed_port_single_attempt (fun _ => Except.error ErrorKind.addrInUse)
      8080 ⟨[1]⟩ (by decide)).2.2.1 rfl⟩

/-- C6: if client cancellation wins the handshake race,
`init_data_sender_bridge` raises the remove token and aborts with the error
`client cancelled`; the per-datagram task then performs no user I/O; and the
worker keeps the sender handle only when the first message wins the race
with a `Sender` frame. -/
theorem client_cancel_aborts_handshake :
    (init_data_sender_bridge .cancelled).outcome = .err "client cancelled" ∧
    (init_data_sender_bridge .cancelled).removeRaised = true ∧
    (∀ (t : TransferInput) (addr : Nat),
      (udp_serve_task ⟨.cancelled, t, addr⟩).sentToClient = [] ∧
      (udp_serve_task ⟨.cancelled, t, addr⟩).sentToPeer = []) ∧
    (∀ (first : FirstArm) (s : Nat),
      (init_data_sender_bridge first).outcome = .ok s →
      first = .recv (some (.Sender s))) := by
  refine ⟨rfl, rfl, fun t addr => ⟨rfl, rfl⟩, ?_⟩
  intro first s hok
  rcases first with m | _
  · rcases m with _ | b
    · simp [init_data_sender_bridge] at hok
    · rcases b with ⟨h2⟩ | ⟨p⟩
      · simp [init_data_sender_bridge] at hok
        rw [hok]
      · simp [init_data_sender_bridge] at hok
  · simp [init_data_sender_bridge] at hok

/-- Witness for C6 at concrete inputs: a `Sender 7` first message wins the
race and the worker keeps exactly that handle. -/
theorem client_cancel_aborts_handshake_witness :
    (init_data_sender_bridge (.recv (some (.Sender 7)))).outcome = .ok 7 ∧
    FirstArm.recv (some (.Sender 7)) = .recv (some (.Sender 7)) :=
  ⟨rfl, client_cancel_aborts_handshake.2.2.2 (.recv (some (.Sender 7))) 7 rfl⟩

/-- C7 counterexample: in the per-connection splice of
`TcpManager::handle_listener`, with the remote side at immediate EOF and one
tunnel frame pending, the tunnel-to-remote direction still delivers its
frame (it is not cancelled by the other direction reaching EOF) and no
remove signal is ever raised, so the claim fails at this input. -/
theorem tcp_splice_no_remove_cex :
    (tcp_splice_task ⟨[], [[1]]⟩).removeRaised = false ∧
    (tcp_splice_task ⟨[], [[1]]⟩).toRemote.written = [[1]] :=
  ⟨rfl, rfl⟩

/-- C7 amended: the two pump directions run concurrently and are joined by
`tokio::join!`: each direction copies its whole stream in order and then
explicitly shuts down its own write half; one direction reaching EOF does
not cancel the other, and no remove signal is raised, since
`handle_listener` has no removal token and never sends a `Remove` event. -/
theorem tcp_splice_join_amended :
    ∀ inp : TcpSpliceInput,
      (tcp_splice_task inp).toTunnel.written = inp.remoteChunks ∧
      (tcp_splice_task inp).toTunnel.shutdownDone = true ∧
      (tcp_splice_task inp).toRemote.written = inp.tunnelFrames ∧
      (tcp_splice_task inp).toRemote.shutdownDone = true ∧
      (tcp_splice_task inp).removeRaised = false := by
  intro ⟨rc, tf⟩
  exact ⟨aux_ioCopy_eq rc, rfl, aux_ioCopy_eq tf, rfl, rfl⟩

/-- C8: the code falls through a cancelled select arm instead of returning.
At the schedule where the request send completes, client cancellation then
fires and wins the reply select, and the third select polls `send_to`
first, the task sends an empty datagram to the peer after cancellation,
instead of exiting silently as the claim states. -/
theorem udp_send_after_cancel_bug :
    (udp_serve_task ⟨.recv (some (.Sender 1)),
        ⟨[7], true, some (.Data [9]), .ready, .cancelled, .ready⟩, 42⟩).sentToPeer
      = [([], 42)] ∧
    (udp_serve_task ⟨.recv (some (.Sender 1)),
        ⟨[7], true, some (.Data [9]), .ready, .cancelled, .ready⟩, 42⟩).sentToClient
      = [[7]] ∧
    (udp_serve_task ⟨.recv (some (.Sender 1)),
        ⟨[7], true, some (.Data [9]), .ready, .cancelled, .ready⟩, 42⟩).panicMsg
      = none :=
  ⟨rfl, rfl, rfl⟩

/-- C9: if the bridge channel closes or yields a `Data` frame before any
`Sender` while `init_data_sender_bridge` awaits the first message, the
function panics rather than returning an error, the remove token is never
raised on that path, and the per-datagram task therefore ends with the
`Add` already published and no `Remove` ever sent. -/
theorem handshake_panic_leaks_bridge :
    (∀ p : List Nat,
      (init_data_sender_bridge (.recv (some (.Data p)))).outcome =
        .panicked "we expect to receive DataSender from data_channel_rx at the first time." ∧
      (init_data_sender_bridge (.recv (some (.Data p)))).removeRaised = false) ∧
    ((init_data_sender_bridge (.recv none)).outcome =
        .panicked "we expect to receive DataSender from data_channel_rx at the first time." ∧
      (init_data_sender_bridge (.recv none)).removeRaised = false) ∧
    (∀ (p : List Nat) (t : TransferInput) (addr : Nat),
      (udp_serve_task ⟨.recv (some (.Data p)), t, addr⟩).addsSent = 1 ∧
      (udp_serve_task ⟨.recv (some (.Data p)), t, addr⟩).removeRaised = false) ∧
    (∀ (t : TransferInput) (addr : Nat),
      (udp_serve_task ⟨.recv none, t, addr⟩).addsSent = 1 ∧
      (udp_serve_task ⟨.recv none, t, addr⟩).removeRaised = false) :=
  ⟨fun _ => ⟨rfl, rfl⟩, ⟨rfl, rfl⟩, fun _ _ _ => ⟨rfl, rfl⟩, fun _ _ => ⟨rfl, rfl⟩⟩

/-- C10: with a positive port, `create_socket` neither reads nor mutates the
`PortManager`: the manager state after the call equals the state before it,
on bind success and on bind failure alike, and the only bind attempt is the
fixed port itself. -/
theorem create_socket_fixed_port_manager_frame :
    ∀ (bind : Nat → Except ErrorKind Unit) (port : Nat) (pm : PortManager),
      0 < port →
      (create_socket bind port pm).pm = pm ∧
      (create_socket bind port pm).attempts = [port] := by
  intro bind port pm hp
  cases hbind : socket_creator_create_socket bind port <;>
    exact ⟨by simp [create_socket, hp, hbind], by simp [create_socket, hp, hbind]⟩

/-- Witness for C10 at concrete inputs: with free set `[2, 3]` and a failing
bind on the fixed port `6610`, the manager state is unchanged. -/
theorem create_socket_fixed_port_manager_frame_witness :
    0 < 6610 ∧
    (create_socket (fun _ => Except.error ErrorKind.other) 6610 ⟨[2, 3]⟩).pm = ⟨[2, 3]⟩ :=
  ⟨by decide,
    (create_socket_fixed_port_manager_frame (fun _ => Except.error ErrorKind.other)
      6610 ⟨[2, 3]⟩ (by decide)).1⟩

end Castle
